import Mathlib

/-!
Verification of the function/gradient evaluation module and the surface
sampling routine of a gradient-visualization program.

The program evaluates one of three closed-form surfaces z = f(x, y) together
with its hand-coded analytic partial derivatives, derives the gradient
magnitude, and samples the surface on a 50 times 50 meshgrid over
[-2.5, 2.5] squared for rendering.  The embedding below translates that
mathematical core into Lean over the real numbers.
-/

namespace MathApp

/-- The display label of the paraboloid variant, as used for dispatch. -/
def peakLabel : String := "Peak (Paraboloid)"

/-- The display label of the hyperbolic-paraboloid variant. -/
def saddleLabel : String := "Saddle (Hyperbolic Paraboloid)"

/-- The display label of the sine/cosine variant. -/
def wavesLabel : String := "Waves (Sin/Cos)"

/-- The tuple returned by `calculate_function`:
value, the two partial derivatives, and the formula label. -/
structure Evaluation where
  z : ℝ
  dz_dx : ℝ
  dz_dy : ℝ
  formula : String

/-- Embedding of `calculate_function(name, x, y)`: dispatches on the display
label; the `Peak` and `Saddle` labels get their closed forms, every other
name falls through to the `Waves` branch. -/
noncomputable def calculate_function (name : String) (x y : ℝ) : Evaluation :=
  if name = peakLabel then
    { z := 4 - x ^ 2 - y ^ 2
      dz_dx := -2 * x
      dz_dy := -2 * y
      formula := "f(x, y) = 4 - x^2 - y^2" }
  else if name = saddleLabel then
    { z := x ^ 2 - y ^ 2
      dz_dx := 2 * x
      dz_dy := -2 * y
      formula := "f(x, y) = x^2 - y^2" }
  else
    { z := Real.sin x * Real.cos y
      dz_dx := Real.cos x * Real.cos y
      dz_dy := -Real.sin x * Real.sin y
      formula := "f(x, y) = \\sin(x) \\cdot \\cos(y)" }

/-- Embedding of `grad_magnitude = np.sqrt(grad_x**2 + grad_y**2)`. -/
noncomputable def grad_magnitude (grad_x grad_y : ℝ) : ℝ :=
  Real.sqrt (grad_x ^ 2 + grad_y ^ 2)

/-- One axis of the sampling grid: `np.linspace(-2.5, 2.5, 50)`,
the evenly spaced sequence of 50 points from -2.5 to 2.5 inclusive. -/
noncomputable def x_range (j : Fin 50) : ℝ := -2.5 + j.val * (5 / 49)

/-- The second axis, identical to the first in the source. -/
noncomputable def y_range (i : Fin 50) : ℝ := -2.5 + i.val * (5 / 49)

/-- `X, Y = np.meshgrid(x_range, y_range)`: the X coordinate of cell (i, j)
is the j-th entry of the x axis. -/
noncomputable def X (_i j : Fin 50) : ℝ := x_range j

/-- The Y coordinate of cell (i, j) is the i-th entry of the y axis. -/
noncomputable def Y (i _j : Fin 50) : ℝ := y_range i

/-- The sampled surface: `Z = 4 - X**2 - Y**2` (resp. the other two closed
forms) computed elementwise over the meshgrid, with the same dispatch on the
selected label as `calculate_function`. -/
noncomputable def Z (name : String) (i j : Fin 50) : ℝ :=
  if name = peakLabel then 4 - X i j ^ 2 - Y i j ^ 2
  else if name = saddleLabel then X i j ^ 2 - Y i j ^ 2
  else Real.sin (X i j) * Real.cos (Y i j)

/-- The grid handed to the renderer: coordinate arrays and sampled values. -/
structure Grid where
  X : Fin 50 → Fin 50 → ℝ
  Y : Fin 50 → Fin 50 → ℝ
  Z : Fin 50 → Fin 50 → ℝ

/-- The mesh-generation block (lines 83-93 of the source) as one routine:
the coordinate arrays are built before the dispatch and do not depend on the
selected function; only `Z` does. -/
noncomputable def sample (name : String) : Grid :=
  { X := X, Y := Y, Z := Z name }

/-- A point is stationary for a two-variable function when both partial
derivatives (in the sense of Mathlib's `deriv` of the one-variable
sections) vanish there. -/
def IsStationary (f : ℝ → ℝ → ℝ) (x y : ℝ) : Prop :=
  deriv (fun t => f t y) x = 0 ∧ deriv (fun t => f x t) y = 0

open scoped Classical

/-- Modelled from the spec: the `GradientSummary.summarize` operation is not
present in the source (the source only prints the magnitude and a caption
that magnitude 0 indicates a critical point).  The spec defines
`summarize(e) = { magnitude, isCritical }` with
`magnitude = sqrt(dz_dx^2 + dz_dy^2)` and `isCritical = (magnitude == 0)`,
the tolerance being the implementer's choice with exact zero named as
adequate for the closed forms given; this model chooses exact zero. -/
structure GradientSummary where
  magnitude : ℝ
  isCritical : Bool

/-- Modelled from the spec: `summarize(e)` pairs the gradient magnitude of
the evaluation with the exact-zero criticality test. -/
noncomputable def summarize (e : Evaluation) : GradientSummary :=
  { magnitude := grad_magnitude e.dz_dx e.dz_dy
    isCritical := decide (grad_magnitude e.dz_dx e.dz_dy = 0) }

/-! ### Helper lemmas -/

theorem saddle_ne_peak : saddleLabel ≠ peakLabel := by decide

theorem waves_ne_peak : wavesLabel ≠ peakLabel := by decide

theorem waves_ne_saddle : wavesLabel ≠ saddleLabel := by decide

/-- The square root of a sum of two squares vanishes exactly when both
components vanish. -/
theorem sqrt_sq_add_sq_eq_zero_iff (a b : ℝ) :
    Real.sqrt (a ^ 2 + b ^ 2) = 0 ↔ a = 0 ∧ b = 0 := by
  constructor
  · intro h
    have hle : a ^ 2 + b ^ 2 ≤ 0 := Real.sqrt_eq_zero'.mp h
    constructor <;> nlinarith [sq_nonneg a, sq_nonneg b]
  · rintro ⟨ha, hb⟩
    simp [ha, hb]

/-- Unfolding lemma for the magnitude, for internal use. -/
theorem grad_magnitude_eq (a b : ℝ) :
    grad_magnitude a b = Real.sqrt (a ^ 2 + b ^ 2) := rfl

theorem deriv_peak_section_x (x y : ℝ) :
    deriv (fun t : ℝ => 4 - t ^ 2 - y ^ 2) x = -2 * x := by
  have h1 : HasDerivAt (fun t : ℝ => t ^ 2) (2 * x) x := by
    simpa using hasDerivAt_pow 2 x
  have h2 := (h1.const_sub 4).sub_const (y ^ 2)
  have h3 : HasDerivAt (fun t : ℝ => 4 - t ^ 2 - y ^ 2) (-2 * x) x := by
    convert h2 using 1
    ring
  exact h3.deriv

theorem deriv_peak_section_y (x y : ℝ) :
    deriv (fun t : ℝ => 4 - x ^ 2 - t ^ 2) y = -2 * y := by
  have h1 : HasDerivAt (fun t : ℝ => t ^ 2) (2 * y) y := by
    simpa using hasDerivAt_pow 2 y
  have h2 := h1.const_sub (4 - x ^ 2)
  have h3 : HasDerivAt (fun t : ℝ => 4 - x ^ 2 - t ^ 2) (-2 * y) y := by
    convert h2 using 1
    ring
  exact h3.deriv

theorem deriv_saddle_section_x (x y : ℝ) :
    deriv (fun t : ℝ => t ^ 2 - y ^ 2) x = 2 * x := by
  have h1 : HasDerivAt (fun t : ℝ => t ^ 2) (2 * x) x := by
    simpa using hasDerivAt_pow 2 x
  exact (h1.sub_const (y ^ 2)).deriv

theorem deriv_saddle_section_y (x y : ℝ) :
    deriv (fun t : ℝ => x ^ 2 - t ^ 2) y = -2 * y := by
  have h1 : HasDerivAt (fun t : ℝ => t ^ 2) (2 * y) y := by
    simpa using hasDerivAt_pow 2 y
  have h2 := h1.const_sub (x ^ 2)
  have h3 : HasDerivAt (fun t : ℝ => x ^ 2 - t ^ 2) (-2 * y) y := by
    convert h2 using 1
    ring
  exact h3.deriv

theorem deriv_waves_section_x (x y : ℝ) :
    deriv (fun t : ℝ => Real.sin t * Real.cos y) x = Real.cos x * Real.cos y :=
  ((Real.hasDerivAt_sin x).mul_const (Real.cos y)).deriv

theorem deriv_waves_section_y (x y : ℝ) :
    deriv (fun t : ℝ => Real.sin x * Real.cos t) y = Real.sin x * -Real.sin y :=
  ((Real.hasDerivAt_cos y).const_mul (Real.sin x)).deriv

/-- Being stationary for the Peak surface means sitting at the origin. -/
theorem stationary_peak_iff (x y : ℝ) :
    IsStationary (fun a b => (calculate_function peakLabel a b).z) x y ↔
      x = 0 ∧ y = 0 := by
  unfold IsStationary
  have e1 : (fun t : ℝ => (calculate_function peakLabel t y).z) =
      fun t : ℝ => 4 - t ^ 2 - y ^ 2 := by
    funext t; simp [calculate_function]
  have e2 : (fun t : ℝ => (calculate_function peakLabel x t).z) =
      fun t : ℝ => 4 - x ^ 2 - t ^ 2 := by
    funext t; simp [calculate_function]
  rw [e1, e2, deriv_peak_section_x, deriv_peak_section_y]
  constructor
  · rintro ⟨h1, h2⟩
    constructor <;> linarith
  · rintro ⟨h1, h2⟩
    subst h1; subst h2
    norm_num

/-- Being stationary for the Saddle surface means sitting at the origin. -/
theorem stationary_saddle_iff (x y : ℝ) :
    IsStationary (fun a b => (calculate_function saddleLabel a b).z) x y ↔
      x = 0 ∧ y = 0 := by
  unfold IsStationary
  have e1 : (fun t : ℝ => (calculate_function saddleLabel t y).z) =
      fun t : ℝ => t ^ 2 - y ^ 2 := by
    funext t; simp [calculate_function, saddle_ne_peak]
  have e2 : (fun t : ℝ => (calculate_function saddleLabel x t).z) =
      fun t : ℝ => x ^ 2 - t ^ 2 := by
    funext t; simp [calculate_function, saddle_ne_peak]
  rw [e1, e2, deriv_saddle_section_x, deriv_saddle_section_y]
  constructor
  · rintro ⟨h1, h2⟩
    constructor <;> linarith
  · rintro ⟨h1, h2⟩
    subst h1; subst h2
    norm_num

/-- Being stationary for the Waves surface means both derivative products
vanish. -/
theorem stationary_waves_iff (x y : ℝ) :
    IsStationary (fun a b => (calculate_function wavesLabel a b).z) x y ↔
      Real.cos x * Real.cos y = 0 ∧ Real.sin x * Real.sin y = 0 := by
  unfold IsStationary
  have e1 : (fun t : ℝ => (calculate_function wavesLabel t y).z) =
      fun t : ℝ => Real.sin t * Real.cos y := by
    funext t; simp [calculate_function, waves_ne_peak, waves_ne_saddle]
  have e2 : (fun t : ℝ => (calculate_function wavesLabel x t).z) =
      fun t : ℝ => Real.sin x * Real.cos t := by
    funext t; simp [calculate_function, waves_ne_peak, waves_ne_saddle]
  rw [e1, e2, deriv_waves_section_x, deriv_waves_section_y]
  simp [mul_neg, neg_eq_zero]

/-! ### Claim theorems -/

/-- C1: for every finite real point (x, y), the evaluator returns exactly
the closed forms and analytic partial derivatives of the spec table — for
Peak (4 - x^2 - y^2, -2x, -2y), for Saddle (x^2 - y^2, 2x, -2y), for Waves
(sin x * cos y, cos x * cos y, -sin x * sin y) — and each variant returns
its fixed formula label. -/
theorem C1_catalog_closed_forms (x y : ℝ) :
    calculate_function peakLabel x y =
      { z := 4 - x ^ 2 - y ^ 2
        dz_dx := -2 * x
        dz_dy := -2 * y
        formula := "f(x, y) = 4 - x^2 - y^2" } ∧
    calculate_function saddleLabel x y =
      { z := x ^ 2 - y ^ 2
        dz_dx := 2 * x
        dz_dy := -2 * y
        formula := "f(x, y) = x^2 - y^2" } ∧
    calculate_function wavesLabel x y =
      { z := Real.sin x * Real.cos y
        dz_dx := Real.cos x * Real.cos y
        dz_dy := -(Real.sin x * Real.sin y)
        formula := "f(x, y) = \\sin(x) \\cdot \\cos(y)" } := by
  refine ⟨?_, ?_, ?_⟩ <;>
    simp [calculate_function, saddle_ne_peak, waves_ne_peak, waves_ne_saddle,
      neg_mul]

/-- C3: for every Evaluation e, the gradient magnitude equals
sqrt(dz_dx^2 + dz_dy^2) of its partial-derivative components. -/
theorem C3_magnitude_is_sqrt_sum_sq (e : Evaluation) :
    grad_magnitude e.dz_dx e.dz_dy =
      Real.sqrt (e.dz_dx ^ 2 + e.dz_dy ^ 2) := rfl

/-- C4: for each of the three function labels and every real point, the
gradient magnitude of the evaluation is zero exactly when the point is a
stationary point of the selected surface, stationarity being the vanishing
of the true (Mathlib `deriv`) partial derivatives of the evaluator's value
component. -/
theorem C4_magnitude_zero_iff_stationary (name : String)
    (hname : name = peakLabel ∨ name = saddleLabel ∨ name = wavesLabel)
    (x y : ℝ) :
    grad_magnitude (calculate_function name x y).dz_dx
        (calculate_function name x y).dz_dy = 0 ↔
      IsStationary (fun a b => (calculate_function name a b).z) x y := by
  rcases hname with h | h | h <;> subst h
  · have hdx : (calculate_function peakLabel x y).dz_dx = -2 * x := by
      simp [calculate_function]
    have hdy : (calculate_function peakLabel x y).dz_dy = -2 * y := by
      simp [calculate_function]
    rw [hdx, hdy, grad_magnitude_eq, sqrt_sq_add_sq_eq_zero_iff,
      stationary_peak_iff]
    constructor <;> rintro ⟨h1, h2⟩ <;> constructor <;> linarith
  · have hdx : (calculate_function saddleLabel x y).dz_dx = 2 * x := by
      simp [calculate_function, saddle_ne_peak]
    have hdy : (calculate_function saddleLabel x y).dz_dy = -2 * y := by
      simp [calculate_function, saddle_ne_peak]
    rw [hdx, hdy, grad_magnitude_eq, sqrt_sq_add_sq_eq_zero_iff,
      stationary_saddle_iff]
    constructor <;> rintro ⟨h1, h2⟩ <;> constructor <;> linarith
  · have hdx : (calculate_function wavesLabel x y).dz_dx =
        Real.cos x * Real.cos y := by
      simp [calculate_function, waves_ne_peak, waves_ne_saddle]
    have hdy : (calculate_function wavesLabel x y).dz_dy =
        -Real.sin x * Real.sin y := by
      simp [calculate_function, waves_ne_peak, waves_ne_saddle]
    rw [hdx, hdy, grad_magnitude_eq, sqrt_sq_add_sq_eq_zero_iff,
      stationary_waves_iff]
    simp [neg_mul, neg_eq_zero]

/-- C4 witness: the theorem applied at the Peak label and the origin. -/
theorem C4_magnitude_zero_iff_stationary_witness :
    (peakLabel = peakLabel ∨ peakLabel = saddleLabel ∨
        peakLabel = wavesLabel) ∧
      (grad_magnitude (calculate_function peakLabel 0 0).dz_dx
          (calculate_function peakLabel 0 0).dz_dy = 0 ↔
        IsStationary (fun a b => (calculate_function peakLabel a b).z) 0 0) :=
  ⟨Or.inl rfl, C4_magnitude_zero_iff_stationary peakLabel (Or.inl rfl) 0 0⟩

/-- C5: for every evaluation of each of the three variants, the summary's
isCritical flag is true exactly when its magnitude is zero (the model uses
the exact-zero tolerance the spec names as adequate). -/
theorem C5_isCritical_iff_magnitude_zero (name : String)
    (_hname : name = peakLabel ∨ name = saddleLabel ∨ name = wavesLabel)
    (x y : ℝ) :
    ((summarize (calculate_function name x y)).isCritical = true ↔
      (summarize (calculate_function name x y)).magnitude = 0) := by
  simp [summarize]

/-- C5 witness: the theorem applied at the Waves label and the origin. -/
theorem C5_isCritical_iff_magnitude_zero_witness :
    (wavesLabel = peakLabel ∨ wavesLabel = saddleLabel ∨
        wavesLabel = wavesLabel) ∧
      ((summarize (calculate_function wavesLabel 0 0)).isCritical = true ↔
        (summarize (calculate_function wavesLabel 0 0)).magnitude = 0) :=
  ⟨Or.inr (Or.inr rfl),
    C5_isCritical_iff_magnitude_zero wavesLabel (Or.inr (Or.inr rfl)) 0 0⟩

/-- C6: for every function label and every grid cell (i, j), the sampled
surface value Z[i][j] equals the z component of the evaluator at the cell's
coordinates (X[i][j], Y[i][j]). -/
theorem C6_sampler_matches_catalog (name : String) (i j : Fin 50) :
    Z name i j = (calculate_function name (X i j) (Y i j)).z := by
  by_cases h1 : name = peakLabel
  · simp [Z, calculate_function, h1]
  · by_cases h2 : name = saddleLabel
    · simp [Z, calculate_function, h1, h2, saddle_ne_peak]
    · simp [Z, calculate_function, h1, h2]

/-- C7: the coordinate grids of the sampler are identical for any two
function labels; each X row (resp. Y column) is the evenly spaced axis of
50 points from -2.5 to 2.5 inclusive with constant spacing 5/49. -/
theorem C7_grid_geometry_function_independent (A B : String) :
    (sample A).X = (sample B).X ∧
    (sample A).Y = (sample B).Y ∧
    (∀ i j : Fin 50, (sample A).X i j = x_range j ∧
      (sample A).Y i j = y_range i) ∧
    x_range ⟨0, by norm_num⟩ = -2.5 ∧
    x_range ⟨49, by norm_num⟩ = 2.5 ∧
    y_range ⟨0, by norm_num⟩ = -2.5 ∧
    y_range ⟨49, by norm_num⟩ = 2.5 ∧
    (∀ (j : ℕ) (hj : j < 49),
      x_range ⟨j + 1, by omega⟩ - x_range ⟨j, by omega⟩ = 5 / 49 ∧
      y_range ⟨j + 1, by omega⟩ - y_range ⟨j, by omega⟩ = 5 / 49) := by
  refine ⟨rfl, rfl, fun i j => ⟨rfl, rfl⟩, ?_, ?_, ?_, ?_, ?_⟩
  · norm_num [x_range]
  · norm_num [x_range]
  · norm_num [y_range]
  · norm_num [y_range]
  · intro j hj
    constructor <;>
      · simp only [x_range, y_range]
        push_cast
        ring

/-- C7 witness: the theorem applied to the Peak and Waves labels, with the
spacing conjunct discharged at j = 0. -/
theorem C7_grid_geometry_function_independent_witness :
    (sample peakLabel).X = (sample wavesLabel).X ∧
      (0 : ℕ) < 49 ∧
      x_range ⟨0 + 1, by norm_num⟩ - x_range ⟨0, by norm_num⟩ = 5 / 49 :=
  ⟨(C7_grid_geometry_function_independent peakLabel wavesLabel).1,
    by norm_num,
    ((C7_grid_geometry_function_independent peakLabel
      wavesLabel).2.2.2.2.2.2.2 0 (by norm_num)).1⟩

/-- C9: for all real (x, y), the Peak gradient magnitude equals
2 * sqrt(x^2 + y^2) exactly. -/
theorem C9_peak_magnitude_closed_form (x y : ℝ) :
    grad_magnitude (calculate_function peakLabel x y).dz_dx
        (calculate_function peakLabel x y).dz_dy =
      2 * Real.sqrt (x ^ 2 + y ^ 2) := by
  have hdx : (calculate_function peakLabel x y).dz_dx = -2 * x := by
    simp [calculate_function]
  have hdy : (calculate_function peakLabel x y).dz_dy = -2 * y := by
    simp [calculate_function]
  rw [hdx, hdy, grad_magnitude_eq,
    show (-2 * x) ^ 2 + (-2 * y) ^ 2 = 2 ^ 2 * (x ^ 2 + y ^ 2) by ring,
    Real.sqrt_mul (by positivity) (x ^ 2 + y ^ 2),
    Real.sqrt_sq (by norm_num : (0 : ℝ) ≤ 2)]

/-- C10: in the reference implementation, any name other than the two exact
Peak and Saddle labels — unrecognized identifiers included — yields the
Waves evaluation at every point; there is no error branch. -/
theorem C10_unrecognized_name_falls_back_to_waves (name : String)
    (h1 : name ≠ peakLabel) (h2 : name ≠ saddleLabel) (x y : ℝ) :
    calculate_function name x y =
      { z := Real.sin x * Real.cos y
        dz_dx := Real.cos x * Real.cos y
        dz_dy := -Real.sin x * Real.sin y
        formula := "f(x, y) = \\sin(x) \\cdot \\cos(y)" } := by
  simp [calculate_function, h1, h2]

/-- C10 witness: the theorem applied to the misspelled name "Gaussian" at
the origin. -/
theorem C10_unrecognized_name_falls_back_to_waves_witness :
    "Gaussian" ≠ peakLabel ∧ "Gaussian" ≠ saddleLabel ∧
      calculate_function "Gaussian" 0 0 =
        { z := Real.sin 0 * Real.cos 0
          dz_dx := Real.cos 0 * Real.cos 0
          dz_dy := -Real.sin 0 * Real.sin 0
          formula := "f(x, y) = \\sin(x) \\cdot \\cos(y)" } :=
  ⟨by decide, by decide,
    C10_unrecognized_name_falls_back_to_waves "Gaussian" (by decide)
      (by decide) 0 0⟩

/-- C2: the spec requires an unrecognized function identifier to fail with
an InvalidArgument condition, but the source has no error branch: at the
unrecognized name "Gaussian" and the point (0, 0) it returns the Waves
evaluation (z = 0, dz_dx = 1, dz_dy = 0) instead of failing. -/
theorem C2_unknown_id_returns_waves_not_error :
    calculate_function "Gaussian" 0 0 =
      { z := 0
        dz_dx := 1
        dz_dy := 0
        formula := "f(x, y) = \\sin(x) \\cdot \\cos(y)" } := by
  have h1 : ("Gaussian" : String) ≠ peakLabel := by decide
  have h2 : ("Gaussian" : String) ≠ saddleLabel := by decide
  simp [calculate_function, h1, h2]

end MathApp
